import Mathlib

/-!
Shallow embedding of `benchmark_utils/init_solver.py` from the
`benchmark_mri_reconstruction` repository.

The module wires together operators and optimizers of an external
convex-optimization library.  The external classes (`POGM`,
`ForwardBackward`, `Condat`, `GradAnalysis`, `GradSynthesis`, `Identity`)
are modelled as inert records capturing exactly the arguments the module
passes to their constructors; the module's own control flow (the
`OPTIMIZERS` table, `get_grad_op`, `initialize_opt`) is translated
faithfully, including the possibility that the local variable
`alpha_init` is read before assignment (Python's `UnboundLocalError`)
and the in-place `pop` mutation of the caller's `opt_kwargs` dict.
-/

namespace InitSolver

/-- A numpy ndarray: a shape, a dtype string, and a flat data buffer.
Complex entries are modelled as pairs (re, im) of rationals. -/
structure NdArray where
  shape : List Nat
  dtype : String
  data : List (ℚ × ℚ)
deriving DecidableEq, Repr

/-- `np.zeros(shape, dtype=...)`: all-zero buffer of `shape.prod` entries. -/
def np_zeros (shape : List Nat) (dtype : String) : NdArray :=
  ⟨shape, dtype, List.replicate shape.prod ((0 : ℚ), (0 : ℚ))⟩

/-- `np.squeeze`: drop every length-one axis; the flat data is unchanged. -/
def np_squeeze (a : NdArray) : NdArray :=
  ⟨a.shape.filter (fun n => n != 1), a.dtype, a.data⟩

/-- The slice of a Fourier operator `initialize_opt` looks at:
`fourier_op.n_coils` and `fourier_op.shape`. -/
structure FourierOp where
  n_coils : Nat
  shape : List Nat
deriving DecidableEq, Repr

/-- A linear operator: a forward map `op` and an adjoint `adj_op`. -/
structure LinearOp where
  op : NdArray → NdArray
  adj_op : NdArray → NdArray

/-- The duck-typed gradient operator `initialize_opt` receives: it reads
`grad_op.fourier_op`, `grad_op.inv_spec_rad`, and tests
`hasattr(grad_op, "linear_op")`, modelled as `linear_op_attr.isSome`. -/
structure GradOp where
  fourier_op : FourierOp
  inv_spec_rad : ℚ
  linear_op_attr : Option LinearOp

/-- A proximity operator: either the library's `Identity()` or an
unconstrained operator passed by the caller. -/
inductive ProxOp where
  | identity : ProxOp
  | named (s : String) : ProxOp
deriving DecidableEq, Repr

/-- A Python value stored in a kwargs dict. -/
inductive Val where
  | num (q : ℚ) : Val
  | bool (b : Bool) : Val
  | str (s : String) : Val
  | arr (a : NdArray) : Val
deriving DecidableEq, Repr

/-- A Python dict of keyword arguments, as an association list. -/
abbrev Dict := List (String × Val)

/-- `d.pop(k, default)`: the value stored at `k` (or `default`) together
with the dict with that entry removed. -/
def dpop (d : Dict) (k : String) (dflt : Val) : Val × Dict :=
  match d.find? (fun kv => kv.1 == k) with
  | some kv => (kv.2, d.eraseP (fun kv2 => kv2.1 == k))
  | none => (dflt, d)

/-- The external gradient-operator classes, as records of the constructor
arguments `get_grad_op` passes. -/
inductive GradOpObj where
  | GradAnalysis (fourier_op : FourierOp) (verbose : Bool) (kwargs : Dict) : GradOpObj
  | GradSynthesis (linear_op : Option LinearOp) (fourier_op : FourierOp)
      (verbose : Bool) (kwargs : Dict) : GradOpObj

/-- `get_grad_op(fourier_op, grad_formulation, linear_op=None,
verbose=False, **kwargs)`: dispatch on the formulation string; falling
off the end of the Python function returns `None`. -/
def get_grad_op (fourier_op : FourierOp) (grad_formulation : String)
    (linear_op : Option LinearOp) (verbose : Bool) (kwargs : Dict) :
    Option GradOpObj :=
  if grad_formulation == "analysis" then
    some (GradOpObj.GradAnalysis fourier_op verbose kwargs)
  else if grad_formulation == "synthesis" then
    some (GradOpObj.GradSynthesis linear_op fourier_op verbose kwargs)
  else
    none

/-- The module-level table
`OPTIMIZERS = {"pogm": "synthesis", "fista": "analysis", "condat-vu": "analysis", None: None}`.
Keys and values are `Option String` so the `None` entry is representable. -/
def OPTIMIZERS : List (Option String × Option String) :=
  [(some "pogm", some "synthesis"), (some "fista", some "analysis"),
   (some "condat-vu", some "analysis"), (none, none)]

/-- `OPTIMIZERS[k]` as a partial lookup. -/
def optimizers_lookup (k : Option String) : Option (Option String) :=
  (OPTIMIZERS.find? (fun kv => kv.1 == k)).map (fun kv => kv.2)

/-- The Python exceptions `initialize_opt` can raise. -/
inductive PyErr where
  | valueError (msg : String) : PyErr
  | unboundLocalError (var : String) : PyErr
deriving DecidableEq, Repr

/-- The arguments `initialize_opt` passes to the `POGM` constructor. -/
structure POGMArgs where
  u : NdArray
  x : NdArray
  y : NdArray
  z : NdArray
  grad : GradOp
  prox : ProxOp
  linear : LinearOp
  beta_param : ℚ
  sigma_bar : Val
  auto_iterate : Val
  extra : Dict

/-- The arguments passed to the `ForwardBackward` constructor. -/
structure FBArgs where
  x : NdArray
  grad : GradOp
  prox : ProxOp
  linear : LinearOp
  beta_param : ℚ
  lambda_param : Val
  auto_iterate : Val
  extra : Dict

/-- The arguments passed to the `Condat` constructor. -/
structure CondatArgs where
  x : NdArray
  y : NdArray
  grad : GradOp
  prox : ProxOp
  prox_dual : ProxOp
  linear : LinearOp
  extra : Dict

/-- An optimizer instance: which external class was constructed, with the
arguments it received. -/
inductive Opt where
  | POGM (a : POGMArgs) : Opt
  | ForwardBackward (a : FBArgs) : Opt
  | Condat (a : CondatArgs) : Opt

/-- How Python's f-string renders `opt_name` (a string or `None`). -/
def pyStr : Option String → String
  | none => "None"
  | some s => s

/-- The default initial value substituted when `x_init is None`:
`np.squeeze(np.zeros((grad_op.fourier_op.n_coils, *grad_op.fourier_op.shape), dtype="complex64"))`. -/
def x_init_default (grad_op : GradOp) : NdArray :=
  np_squeeze (np_zeros (grad_op.fourier_op.n_coils :: grad_op.fourier_op.shape) "complex64")

/-- What a call to `initialize_opt` produces: the returned optimizer (or
the exception raised), together with the final contents of the caller's
`opt_kwargs` and `metric_kwargs` dict objects (`pop` mutates the former
in place). -/
structure InitOut where
  res : Except PyErr Opt
  opt_kwargs_after : Dict
  metric_kwargs_after : Dict

/-- `initialize_opt(opt_name, grad_op, linear_op, prox_op, x_init=None,
synthesis_init=False, opt_kwargs=None, metric_kwargs=None)`, translated
line by line.  `alpha_init` is an `Option`: `none` while the Python local
is still unassigned, and reading it then raises `UnboundLocalError`
(argument expressions are evaluated left to right, so `u=alpha_init`
raises before any `pop` runs). -/
def initialize_opt (opt_name : Option String) (grad_op : GradOp)
    (linear_op : LinearOp) (prox_op : ProxOp) (x_init : Option NdArray)
    (synthesis_init : Bool) (opt_kwargs : Option Dict)
    (metric_kwargs : Option Dict) : InitOut :=
  let x0 : NdArray :=
    match x_init with
    | none => x_init_default grad_op
    | some v => v
  let hasLin : Bool := grad_op.linear_op_attr.isSome
  let step : Option NdArray × NdArray :=
    if !synthesis_init && hasLin then
      (grad_op.linear_op_attr.map (fun lo => lo.op x0), x0)
    else if synthesis_init && !hasLin then
      (none, linear_op.adj_op x0)
    else if !synthesis_init && hasLin then
      (some x0, x0)
    else
      (none, x0)
  let alpha_init : Option NdArray := step.1
  let x1 : NdArray := step.2
  let optk : Dict :=
    match opt_kwargs with
    | none => []
    | some d => d
  let metk : Dict :=
    match metric_kwargs with
    | none => []
    | some d => d
  let beta : ℚ := grad_op.inv_spec_rad
  if opt_name == some "pogm" then
    match alpha_init with
    | none => ⟨Except.error (PyErr.unboundLocalError "alpha_init"), optk, metk⟩
    | some a =>
      let sb := dpop optk "sigma_bar" (Val.num (96 / 100))
      let ai := dpop sb.2 "auto_iterate" (Val.bool false)
      ⟨Except.ok (Opt.POGM ⟨a, a, a, a, grad_op, prox_op, linear_op, beta,
          sb.1, ai.1, ai.2 ++ metk⟩), ai.2, metk⟩
  else if opt_name == some "fista" then
    let lp := dpop optk "lambda_param" (Val.num 1)
    let ai := dpop lp.2 "auto_iterate" (Val.bool false)
    ⟨Except.ok (Opt.ForwardBackward ⟨x1, grad_op, prox_op, linear_op, beta,
        lp.1, ai.1, ai.2 ++ metk⟩), ai.2, metk⟩
  else if opt_name == some "condat-vu" then
    let y0 := linear_op.op x1
    ⟨Except.ok (Opt.Condat ⟨x1, y0, grad_op, ProxOp.identity, prox_op,
        linear_op, optk ++ metk⟩), optk, metk⟩
  else
    ⟨Except.error (PyErr.valueError ("Optimizer " ++ pyStr opt_name ++ " not implemented")),
     optk, metk⟩

/-- `initialize_opt` with the third (`elif not synthesis_init and
hasattr(grad_op, "linear_op")`) branch of the initial-value conditional
removed; otherwise identical, used to state the unreachability claim. -/
def initialize_opt_noelif (opt_name : Option String) (grad_op : GradOp)
    (linear_op : LinearOp) (prox_op : ProxOp) (x_init : Option NdArray)
    (synthesis_init : Bool) (opt_kwargs : Option Dict)
    (metric_kwargs : Option Dict) : InitOut :=
  let x0 : NdArray :=
    match x_init with
    | none => x_init_default grad_op
    | some v => v
  let hasLin : Bool := grad_op.linear_op_attr.isSome
  let step : Option NdArray × NdArray :=
    if !synthesis_init && hasLin then
      (grad_op.linear_op_attr.map (fun lo => lo.op x0), x0)
    else if synthesis_init && !hasLin then
      (none, linear_op.adj_op x0)
    else
      (none, x0)
  let alpha_init : Option NdArray := step.1
  let x1 : NdArray := step.2
  let optk : Dict :=
    match opt_kwargs with
    | none => []
    | some d => d
  let metk : Dict :=
    match metric_kwargs with
    | none => []
    | some d => d
  let beta : ℚ := grad_op.inv_spec_rad
  if opt_name == some "pogm" then
    match alpha_init with
    | none => ⟨Except.error (PyErr.unboundLocalError "alpha_init"), optk, metk⟩
    | some a =>
      let sb := dpop optk "sigma_bar" (Val.num (96 / 100))
      let ai := dpop sb.2 "auto_iterate" (Val.bool false)
      ⟨Except.ok (Opt.POGM ⟨a, a, a, a, grad_op, prox_op, linear_op, beta,
          sb.1, ai.1, ai.2 ++ metk⟩), ai.2, metk⟩
  else if opt_name == some "fista" then
    let lp := dpop optk "lambda_param" (Val.num 1)
    let ai := dpop lp.2 "auto_iterate" (Val.bool false)
    ⟨Except.ok (Opt.ForwardBackward ⟨x1, grad_op, prox_op, linear_op, beta,
        lp.1, ai.1, ai.2 ++ metk⟩), ai.2, metk⟩
  else if opt_name == some "condat-vu" then
    let y0 := linear_op.op x1
    ⟨Except.ok (Opt.Condat ⟨x1, y0, grad_op, ProxOp.identity, prox_op,
        linear_op, optk ++ metk⟩), optk, metk⟩
  else
    ⟨Except.error (PyErr.valueError ("Optimizer " ++ pyStr opt_name ++ " not implemented")),
     optk, metk⟩

/-- The module's mutable top-level state: the one module-level binding,
`OPTIMIZERS`. -/
structure ModuleState where
  optimizers : List (Option String × Option String)

/-- `get_grad_op` run against an explicit module state.  The Python body
neither reads nor writes `OPTIMIZERS`, so the state is returned as it
came in and the result is computed from the arguments alone. -/
def get_grad_op_st (st : ModuleState) (fourier_op : FourierOp)
    (grad_formulation : String) (linear_op : Option LinearOp)
    (verbose : Bool) (kwargs : Dict) : ModuleState × Option GradOpObj :=
  (st, get_grad_op fourier_op grad_formulation linear_op verbose kwargs)

/-- `initialize_opt` run against an explicit module state; its body never
touches `OPTIMIZERS` either. -/
def initialize_opt_st (st : ModuleState) (opt_name : Option String)
    (grad_op : GradOp) (linear_op : LinearOp) (prox_op : ProxOp)
    (x_init : Option NdArray) (synthesis_init : Bool)
    (opt_kwargs : Option Dict) (metric_kwargs : Option Dict) :
    ModuleState × InitOut :=
  (st, initialize_opt opt_name grad_op linear_op prox_op x_init
    synthesis_init opt_kwargs metric_kwargs)

/-- Whether a call returned an optimizer rather than raising. -/
def resOk : Except PyErr Opt → Bool
  | Except.ok _ => true
  | Except.error _ => false

/-- The `beta_param` the constructed optimizer received (`Condat` gets
none). -/
def optBeta : Opt → Option ℚ
  | Opt.POGM a => some a.beta_param
  | Opt.ForwardBackward a => some a.beta_param
  | Opt.Condat _ => none

/-- The `**`-forwarded keyword arguments the constructor received. -/
def optExtra : Opt → Dict
  | Opt.POGM a => a.extra
  | Opt.ForwardBackward a => a.extra
  | Opt.Condat a => a.extra

/-- The external class name of a constructed optimizer. -/
def className : Opt → String
  | Opt.POGM _ => "POGM"
  | Opt.ForwardBackward _ => "ForwardBackward"
  | Opt.Condat _ => "Condat"

/-- The class `initialize_opt` associates with each valid name. -/
def classFor : Option String → String
  | some "pogm" => "POGM"
  | some "fista" => "ForwardBackward"
  | some "condat-vu" => "Condat"
  | _ => ""

/-- The name-specific keys each branch pops from `opt_kwargs`. -/
def popKeys : Option String → List String
  | some "pogm" => ["sigma_bar", "auto_iterate"]
  | some "fista" => ["lambda_param", "auto_iterate"]
  | _ => []

/-- Remove (the first entry of) each of the given keys from a dict. -/
def eraseKeys (d : Dict) (ks : List String) : Dict :=
  ks.foldl (fun acc k => acc.eraseP (fun kv => kv.1 == k)) d

/-- Concrete sample operators used in witnesses and counterexamples. -/
def fo0 : FourierOp := ⟨1, [2, 1, 3]⟩

def lin0 : LinearOp := ⟨fun a => a, fun a => a⟩

def g0 : GradOp := ⟨fo0, 1 / 2, some lin0⟩

def gNoLin : GradOp := ⟨fo0, 1 / 2, none⟩

def p0 : ProxOp := ProxOp.named "sparsity"

/-! Helper lemmas. -/

/-- The dict a `pop` leaves behind is the original with the first entry
for the key erased (a no-op when the key is absent). -/
theorem dpop_snd (d : Dict) (k : String) (dflt : Val) :
    (dpop d k dflt).2 = d.eraseP (fun kv => kv.1 == k) := by
  unfold dpop
  cases h : d.find? (fun kv => kv.1 == k) with
  | none =>
    have hall : ∀ kv ∈ d, ¬(kv.1 == k) = true := by
      intro kv hkv
      exact List.find?_eq_none.mp h kv hkv
    simp only
    rw [List.eraseP_of_forall_not hall]
  | some kv => rfl

/-! Claim theorems. -/

/-- C6. The module-level table `OPTIMIZERS` has exactly four entries,
mapping "pogm" to "synthesis", "fista" to "analysis", "condat-vu" to
"analysis", and `None` to `None`, and contains nothing else. -/
theorem optimizers_table_spec :
    OPTIMIZERS.length = 4 ∧
    optimizers_lookup (some "pogm") = some (some "synthesis") ∧
    optimizers_lookup (some "fista") = some (some "analysis") ∧
    optimizers_lookup (some "condat-vu") = some (some "analysis") ∧
    optimizers_lookup none = some none ∧
    (∀ kv, kv ∈ OPTIMIZERS ↔
      kv = (some "pogm", some "synthesis") ∨
      kv = (some "fista", some "analysis") ∨
      kv = (some "condat-vu", some "analysis") ∨
      kv = (none, none)) := by
  refine ⟨rfl, rfl, rfl, rfl, rfl, ?_⟩
  intro kv
  simp [OPTIMIZERS]

/-- C3. `get_grad_op` returns a `GradAnalysis` built from `fourier_op`
exactly when `grad_formulation = "analysis"`, and a `GradSynthesis` built
from `linear_op` and `fourier_op` exactly when it is `"synthesis"`. -/
theorem get_grad_op_selects (fo : FourierOp) (form : String)
    (lo : Option LinearOp) (v : Bool) (kw : Dict) :
    (get_grad_op fo form lo v kw = some (GradOpObj.GradAnalysis fo v kw)
      ↔ form = "analysis") ∧
    (get_grad_op fo form lo v kw = some (GradOpObj.GradSynthesis lo fo v kw)
      ↔ form = "synthesis") := by
  unfold get_grad_op
  split_ifs with h1 h2 <;> simp_all

/-- C7. The two entry points are stateless: run against an explicit
module state (the `OPTIMIZERS` binding), each returns the state
unchanged, and the result of either is the same across two runs with
arbitrary (possibly different) states. -/
theorem entry_points_stateless (st st2 : ModuleState) (fo : FourierOp)
    (form : String) (lo : Option LinearOp) (v : Bool) (kw : Dict)
    (name : Option String) (g : GradOp) (l : LinearOp) (p : ProxOp)
    (x : Option NdArray) (s : Bool) (ok mk : Option Dict) :
    (get_grad_op_st st fo form lo v kw).1 = st ∧
    (initialize_opt_st st name g l p x s ok mk).1 = st ∧
    (get_grad_op_st st fo form lo v kw).2 = (get_grad_op_st st2 fo form lo v kw).2 ∧
    (initialize_opt_st st name g l p x s ok mk).2
      = (initialize_opt_st st2 name g l p x s ok mk).2 :=
  ⟨rfl, rfl, rfl, rfl⟩

/-- C8. The third branch of the initial-value conditional
(`alpha_init = x_init`) is unreachable — its guard repeats the first
branch's guard — so `initialize_opt` is extensionally equal to the same
function with that `elif` removed. -/
theorem third_branch_unreachable_equiv (name : Option String) (g : GradOp)
    (l : LinearOp) (p : ProxOp) (x : Option NdArray) (s : Bool)
    (ok mk : Option Dict) :
    initialize_opt name g l p x s ok mk
      = initialize_opt_noelif name g l p x s ok mk := by
  rcases g with ⟨fo, isr, lo⟩
  cases lo <;> cases s <;> rfl

/-- C10. With `x_init=None`, the value substituted for `x_init` is
`np.squeeze(np.zeros((n_coils, *shape), dtype="complex64"))`: calling
with `None` is the same as passing that array, whose dtype is complex64,
whose shape is `(n_coils, *shape)` with every length-one axis dropped,
and whose buffer is all zeros. -/
theorem default_x_init_spec (name : Option String) (g : GradOp)
    (l : LinearOp) (p : ProxOp) (s : Bool) (ok mk : Option Dict) :
    initialize_opt name g l p none s ok mk
      = initialize_opt name g l p (some (x_init_default g)) s ok mk ∧
    (x_init_default g).dtype = "complex64" ∧
    (x_init_default g).shape
      = (g.fourier_op.n_coils :: g.fourier_op.shape).filter (fun n => n != 1) ∧
    (x_init_default g).data
      = List.replicate (g.fourier_op.n_coils :: g.fourier_op.shape).prod
          ((0 : ℚ), (0 : ℚ)) :=
  ⟨rfl, rfl, rfl, rfl⟩

/-- C4. For "pogm" and "fista", the `beta_param` handed to the optimizer
constructor is `grad_op.inv_spec_rad`, computed once before dispatch. -/
theorem beta_param_eq_inv_spec_rad (name : Option String) (g : GradOp)
    (l : LinearOp) (p : ProxOp) (x : Option NdArray) (s : Bool)
    (ok mk : Option Dict) (o : Opt)
    (hname : name = some "pogm" ∨ name = some "fista")
    (hok : (initialize_opt name g l p x s ok mk).res = Except.ok o) :
    optBeta o = some g.inv_spec_rad := by
  rcases g with ⟨fo, isr, lo⟩
  rcases hname with rfl | rfl <;> cases lo <;> cases s <;>
    simp only [initialize_opt] at hok
  all_goals simp at hok
  all_goals cases hok
  all_goals rfl

/-- C4 witness: a concrete "fista" call whose `beta_param` is the
operator's `inv_spec_rad`. -/
theorem beta_param_eq_inv_spec_rad_witness :
    optBeta (Opt.ForwardBackward ⟨x_init_default g0, g0, p0, lin0, 1 / 2,
      Val.num 1, Val.bool false, []⟩) = some g0.inv_spec_rad :=
  beta_param_eq_inv_spec_rad (some "fista") g0 lin0 p0 none false none none
    (Opt.ForwardBackward ⟨x_init_default g0, g0, p0, lin0, 1 / 2,
      Val.num 1, Val.bool false, []⟩) (Or.inr rfl) rfl

/-- C1 counterexample: `opt_name="pogm"` is a valid name, yet with a
gradient operator lacking a `linear_op` attribute the call raises
`UnboundLocalError` (the local `alpha_init` is read before assignment),
so the invalid-name `ValueError` is not the only failure and valid names
do not always succeed. -/
theorem pogm_unbound_alpha_cex :
    (initialize_opt (some "pogm") gNoLin lin0 p0 none false none none).res
      = Except.error (PyErr.unboundLocalError "alpha_init") ∧
    resOk (initialize_opt (some "pogm") gNoLin lin0 p0 none false none none).res
      = false :=
  ⟨rfl, rfl⟩

/-- C1 amended: an invalid name raises exactly the
`ValueError "Optimizer {opt_name} not implemented"`; "fista" and
"condat-vu" always succeed; "pogm" succeeds precisely when
`synthesis_init` is false and `grad_op` has a `linear_op` attribute, and
otherwise raises `UnboundLocalError` on `alpha_init`. -/
theorem initialize_opt_failure_modes (name : Option String) (g : GradOp)
    (l : LinearOp) (p : ProxOp) (x : Option NdArray) (s : Bool)
    (ok mk : Option Dict) :
    (name ∉ ([some "pogm", some "fista", some "condat-vu"] : List (Option String)) →
      (initialize_opt name g l p x s ok mk).res
        = Except.error (PyErr.valueError
            ("Optimizer " ++ pyStr name ++ " not implemented"))) ∧
    ((name = some "fista" ∨ name = some "condat-vu") →
      resOk (initialize_opt name g l p x s ok mk).res = true) ∧
    (name = some "pogm" →
      (resOk (initialize_opt name g l p x s ok mk).res = true
        ↔ (s = false ∧ g.linear_op_attr.isSome = true)) ∧
      (resOk (initialize_opt name g l p x s ok mk).res = false →
        (initialize_opt name g l p x s ok mk).res
          = Except.error (PyErr.unboundLocalError "alpha_init"))) := by
  refine ⟨?_, ?_, ?_⟩
  · intro hnot
    simp only [List.mem_cons, List.not_mem_nil, or_false, not_or] at hnot
    obtain ⟨h1, h2, h3⟩ := hnot
    have e1 : (name == some "pogm") = false := by simp [h1]
    have e2 : (name == some "fista") = false := by simp [h2]
    have e3 : (name == some "condat-vu") = false := by simp [h3]
    simp [initialize_opt, e1, e2, e3]
  · rcases g with ⟨fo, isr, lo⟩
    rintro (rfl | rfl) <;> cases lo <;> cases s <;> rfl
  · rintro rfl
    rcases g with ⟨fo, isr, lo⟩
    cases lo <;> cases s <;> simp [initialize_opt, resOk]

/-- C2 counterexample: with the valid name "pogm" but
`synthesis_init=True`, no optimizer instance is returned at all (the
call raises `UnboundLocalError`), so a valid name does not always yield
an instance. -/
theorem pogm_no_instance_cex :
    resOk (initialize_opt (some "pogm") g0 lin0 p0 none true none none).res
      = false ∧
    (initialize_opt (some "pogm") g0 lin0 p0 none true none none).res
      = Except.error (PyErr.unboundLocalError "alpha_init") :=
  ⟨rfl, rfl⟩

/-- C2 amended: whenever a call with a valid name returns an instance,
that instance is of exactly the class determined by the name — `POGM`
for "pogm", `ForwardBackward` for "fista", `Condat` for "condat-vu" —
but for "pogm" the call may instead raise and return no instance. -/
theorem initialize_opt_class_selection (name : Option String) (g : GradOp)
    (l : LinearOp) (p : ProxOp) (x : Option NdArray) (s : Bool)
    (ok mk : Option Dict) (o : Opt)
    (hname : name ∈ ([some "pogm", some "fista", some "condat-vu"] :
      List (Option String)))
    (hok : (initialize_opt name g l p x s ok mk).res = Except.ok o) :
    className o = classFor name := by
  simp only [List.mem_cons, List.not_mem_nil, or_false] at hname
  rcases g with ⟨fo, isr, lo⟩
  rcases hname with rfl | rfl | rfl <;> cases lo <;> cases s <;>
    simp only [initialize_opt] at hok
  all_goals simp at hok
  all_goals cases hok
  all_goals rfl

/-- C2 witness: a concrete "fista" call returns a `ForwardBackward`
instance, the class `classFor` assigns to "fista". -/
theorem initialize_opt_class_selection_witness :
    className (Opt.ForwardBackward ⟨x_init_default g0, g0, p0, lin0, 1 / 2,
      Val.num 1, Val.bool false, []⟩) = classFor (some "fista") :=
  initialize_opt_class_selection (some "fista") g0 lin0 p0 none false none
    none (Opt.ForwardBackward ⟨x_init_default g0, g0, p0, lin0, 1 / 2,
      Val.num 1, Val.bool false, []⟩) (by simp) rfl

/-- C5. Whenever a call with a valid name returns an instance, the
`**`-forwarded keyword arguments the constructor received are exactly
the entries of `opt_kwargs` left after the name-specific pops
(sigma_bar/auto_iterate for "pogm", lambda_param/auto_iterate for
"fista", none for "condat-vu"), followed by every entry of
`metric_kwargs`, all unchanged; and passing `None` for either dict is
the same as passing an empty dict. -/
theorem kwargs_forwarding (name : Option String) (g : GradOp)
    (l : LinearOp) (p : ProxOp) (x : Option NdArray) (s : Bool)
    (od md : Dict) (o : Opt)
    (hname : name ∈ ([some "pogm", some "fista", some "condat-vu"] :
      List (Option String)))
    (hok : (initialize_opt name g l p x s (some od) (some md)).res
      = Except.ok o) :
    optExtra o = eraseKeys od (popKeys name) ++ md ∧
    (∀ mk2, initialize_opt name g l p x s none mk2
      = initialize_opt name g l p x s (some []) mk2) ∧
    (∀ ok2, initialize_opt name g l p x s ok2 none
      = initialize_opt name g l p x s ok2 (some [])) := by
  refine ⟨?_, fun mk2 => rfl, fun ok2 => rfl⟩
  simp only [List.mem_cons, List.not_mem_nil, or_false] at hname
  rcases g with ⟨fo, isr, lo⟩
  rcases hname with rfl | rfl | rfl <;> cases lo <;> cases s <;>
    simp only [initialize_opt] at hok
  all_goals simp at hok
  all_goals cases hok
  all_goals simp [optExtra, popKeys, eraseKeys, dpop_snd]

/-- C5 witness: a concrete "fista" call with one popped key, one extra
key and one metric entry; the constructor receives exactly the leftover
pair followed by the metric pair. -/
theorem kwargs_forwarding_witness :
    optExtra (Opt.ForwardBackward ⟨x_init_default g0, g0, p0, lin0, 1 / 2,
        Val.num 2, Val.bool false,
        [("extra_key", Val.num 3), ("metric_key", Val.str "m")]⟩)
      = eraseKeys [("lambda_param", Val.num 2), ("extra_key", Val.num 3)]
          (popKeys (some "fista")) ++ [("metric_key", Val.str "m")] ∧
    (∀ mk2, initialize_opt (some "fista") g0 lin0 p0 none false none mk2
      = initialize_opt (some "fista") g0 lin0 p0 none false (some []) mk2) ∧
    (∀ ok2, initialize_opt (some "fista") g0 lin0 p0 none false ok2 none
      = initialize_opt (some "fista") g0 lin0 p0 none false ok2 (some [])) :=
  kwargs_forwarding (some "fista") g0 lin0 p0 none false
    [("lambda_param", Val.num 2), ("extra_key", Val.num 3)]
    [("metric_key", Val.str "m")]
    (Opt.ForwardBackward ⟨x_init_default g0, g0, p0, lin0, 1 / 2,
      Val.num 2, Val.bool false,
      [("extra_key", Val.num 3), ("metric_key", Val.str "m")]⟩)
    (by simp) rfl

/-- C9 counterexample: a "pogm" call with `sigma_bar` present in
`opt_kwargs` that removes nothing — the `UnboundLocalError` on
`alpha_init` is raised before any `pop` runs, so "when opt_name is pogm
it removes the keys if present" fails. -/
theorem pogm_pop_not_reached_cex :
    (initialize_opt (some "pogm") g0 lin0 p0 none true
        (some [("sigma_bar", Val.num 1)]) none).opt_kwargs_after
      = [("sigma_bar", Val.num 1)] ∧
    resOk (initialize_opt (some "pogm") g0 lin0 p0 none true
        (some [("sigma_bar", Val.num 1)]) none).res = false :=
  ⟨rfl, rfl⟩

/-- C9 amended: the caller's `opt_kwargs` dict is mutated in place —
for "pogm", when `alpha_init` was assigned (`synthesis_init` false and
`grad_op` has a `linear_op` attribute), the first `sigma_bar` and
`auto_iterate` entries are removed if present; for "fista" the first
`lambda_param` and `auto_iterate` entries are removed if present; and
`metric_kwargs` is never mutated by any call. -/
theorem opt_kwargs_mutation (g : GradOp) (l : LinearOp) (p : ProxOp)
    (x : Option NdArray) (od md : Dict) :
    (g.linear_op_attr.isSome = true →
      (initialize_opt (some "pogm") g l p x false (some od)
          (some md)).opt_kwargs_after
        = (od.eraseP (fun kv => kv.1 == "sigma_bar")).eraseP
            (fun kv => kv.1 == "auto_iterate")) ∧
    (∀ s, (initialize_opt (some "fista") g l p x s (some od)
        (some md)).opt_kwargs_after
      = (od.eraseP (fun kv => kv.1 == "lambda_param")).eraseP
          (fun kv => kv.1 == "auto_iterate")) ∧
    (∀ name s, (initialize_opt name g l p x s (some od)
        (some md)).metric_kwargs_after = md) := by
  rcases g with ⟨fo, isr, lo⟩
  refine ⟨?_, ?_, ?_⟩
  · intro hlin
    cases lo with
    | none => simp at hlin
    | some lo2 => simp [initialize_opt, dpop_snd]
  · intro s
    cases lo <;> cases s <;> simp [initialize_opt, dpop_snd]
  · intro name s
    cases lo <;> cases s <;>
      (simp only [initialize_opt]
       repeat' split
       all_goals rfl)

/-- C9 witness: a concrete "pogm"/"fista" pair of calls on a dict
holding an `auto_iterate` entry, which is removed, while the metric
dict comes back untouched. -/
theorem opt_kwargs_mutation_witness :
    (g0.linear_op_attr.isSome = true →
      (initialize_opt (some "pogm") g0 lin0 p0 none false
          (some [("auto_iterate", Val.bool true)])
          (some [("m", Val.num 0)])).opt_kwargs_after
        = (([("auto_iterate", Val.bool true)] : Dict).eraseP
            (fun kv => kv.1 == "sigma_bar")).eraseP
            (fun kv => kv.1 == "auto_iterate")) ∧
    (∀ s, (initialize_opt (some "fista") g0 lin0 p0 none s
        (some [("auto_iterate", Val.bool true)])
        (some [("m", Val.num 0)])).opt_kwargs_after
      = (([("auto_iterate", Val.bool true)] : Dict).eraseP
          (fun kv => kv.1 == "lambda_param")).eraseP
          (fun kv => kv.1 == "auto_iterate")) ∧
    (∀ name s, (initialize_opt name g0 lin0 p0 none s
        (some [("auto_iterate", Val.bool true)])
        (some [("m", Val.num 0)])).metric_kwargs_after
      = [("m", Val.num 0)]) :=
  opt_kwargs_mutation g0 lin0 p0 none [("auto_iterate", Val.bool true)]
    [("m", Val.num 0)]

end InitSolver
